import Mathlib

/-!
Shallow embedding of the Mech-Importer pipeline
(src/Mech-Importer/Mech_Importer.py), covering the material classifier,
the transform composer, the rig geometry binder, the skeleton augmenter,
the constraint wirer and the error policy of the orchestrator, together
with theorems settling the specification claims about them.
-/

namespace MechImporter

/-! ## String utilities

Substring test of Python (`needle in haystack`) and `replace`,
modelled on the character lists underlying Lean strings. -/

/-- Boolean test that the first list is a prefix of the second. -/
def listPrefixOf : List Char → List Char → Bool
  | [], _ => true
  | _ :: _, [] => false
  | a :: as, b :: bs => a == b && listPrefixOf as bs

/-- Boolean test that `needle` occurs as a contiguous infix of the haystack. -/
def listInfixOf (needle : List Char) : List Char → Bool
  | [] => listPrefixOf needle []
  | b :: bs => listPrefixOf needle (b :: bs) || listInfixOf needle bs

/-- Model of the Python membership test `needle in haystack` on strings. -/
def pyIn (needle haystack : String) : Bool :=
  listInfixOf needle.data haystack.data

/-- Model of the Python call `s.replace(' ', '_')`: every space becomes an
underscore (source line 730, applied to the BoneName attribute). -/
def pyReplaceSpace (s : String) : String :=
  ⟨s.data.map (fun c => if c = ' ' then '_' else c)⟩

/-! ## Material classifier

The fixed weapon-name vocabulary (source lines 68-70) and the pre-import
name-based classification of import_geometry (source lines 735-741),
which reassigns `materialname` through a sequence of independent `if`
statements. -/

/-- The fixed weapon-name vocabulary `weapons` (source lines 68-70). -/
def weapons : List String :=
  ["hero", "missile", "missle", "narc", "uac", "uac2", "uac5", "uac10",
   "uac20", "rac", "ac2", "ac5", "ac10", "ac20", "gauss", "ppc", "flamer",
   "_mg_", "_lbx", "damaged", "_mount", "laser", "ams", "_phoenix", "blank",
   "invasion", "hmg", "lmg", "lams", "hand", "barrel"]

/-- Pre-import material classification (source lines 735-741):
`materialname` starts as `<mech>_body` and is successively reassigned by
the weapon test, the `_damaged`/`_prop` test, and the `head_cockpit` test;
each later `if` overwrites the earlier result. -/
def preClassify (mechname aname : String) : String :=
  let m0 := mechname ++ "_body"
  let m1 := if weapons.any (fun w => pyIn w aname) then mechname ++ "_variant" else m0
  let m2 := if pyIn "_damaged" aname || pyIn "_prop" aname then mechname ++ "_body" else m1
  if pyIn "head_cockpit" aname then mechname ++ "_window" else m2

/-- Modelled from the spec (claim C1, refinement comparison only): the
classifier the claim describes, applying rule 1 (cockpit), then rule 2
(weapon vocabulary), then rule 3 (`_damaged`/`_prop`), first match
winning. -/
def claimedClassify (mechname aname : String) : String :=
  if pyIn "head_cockpit" aname then mechname ++ "_window"
  else if weapons.any (fun w => pyIn w aname) then mechname ++ "_variant"
  else if pyIn "_damaged" aname || pyIn "_prop" aname then mechname ++ "_body"
  else mechname ++ "_body"

/-- Post-import material correction (source lines 780-790), for a mesh
whose material slot 0 exists.  Here `preName` is the value `materialname`
carries into the block (the pre-import guess); the code overwrites it on
every path: the generic branch consults the names of the materials known
to the scene (`bpy.data.materials.keys()`, here `materialKeys`), the
non-generic branch assigns `<mech>_variant`, and an object name containing
`_prop` finally forces `<mech>_body`. -/
def postClassify (mechname preName slot0Name objName : String)
    (materialKeys : List String) : String :=
  let m1 := if pyIn "generic" slot0Name then
              (if (mechname ++ "_generic") ∈ materialKeys then
                mechname ++ "_generic"
              else "generic")
            else mechname ++ "_variant"
  if pyIn "_prop" objName then mechname ++ "_body" else m1

/-! ## Transform composer

Models of convert_to_rotation, convert_to_location and
get_transform_matrix (source lines 102-123).  Scalars are rationals; the
Python float conversion is modelled for plain signed decimal literals,
the form the descriptor files carry. -/

/-- Accumulate the value of a run of decimal digits; fails on a non-digit. -/
def digitsValAux : List Char → Nat → Option Nat
  | [], acc => some acc
  | c :: cs, acc =>
      if c.isDigit then digitsValAux cs (10 * acc + (c.toNat - 48)) else none

/-- Model of the Python call `float(s)` on a plain signed decimal literal
such as `-1.25` (optional sign, integer digits, optional fractional
part).  Other inputs (exponents, surrounding whitespace, specials) are out
of the modelled domain and return `none`. -/
def pyFloat (s : String) : Option ℚ :=
  let p : Bool × List Char :=
    match s.data with
    | '-' :: rest => (true, rest)
    | '+' :: rest => (false, rest)
    | cs => (false, cs)
  let neg := p.1
  let cs := p.2
  let ip := cs.takeWhile (fun c => c.isDigit)
  let rest := cs.dropWhile (fun c => c.isDigit)
  match rest with
  | [] =>
      if ip.isEmpty then none
      else (digitsValAux ip 0).map
        (fun v => if neg then -(v : ℚ) else (v : ℚ))
  | '.' :: fp =>
      if fp.all (fun c => c.isDigit) && !(ip.isEmpty && fp.isEmpty) then
        match digitsValAux ip 0, digitsValAux fp 0 with
        | some i, some f =>
            let v : ℚ := (i : ℚ) + (f : ℚ) / (10 : ℚ) ^ fp.length
            some (if neg then -v else v)
        | _, _ => none
      else none
  | _ => none

/-- Helper for `splitComma`: accumulates the current field in reverse. -/
def splitCommaAux : List Char → List Char → List String
  | [], acc => [⟨acc.reverse⟩]
  | ',' :: cs, acc => (⟨acc.reverse⟩ : String) :: splitCommaAux cs []
  | c :: cs, acc => splitCommaAux cs (c :: acc)

/-- Model of the Python call `s.split(',')`. -/
def splitComma (s : String) : List String :=
  splitCommaAux s.data []

/-- A rotation quaternion, components named as mathutils names them. -/
structure Quat where
  w : ℚ
  x : ℚ
  y : ℚ
  z : ℚ
deriving DecidableEq

/-- A position vector. -/
structure Vec3 where
  x : ℚ
  y : ℚ
  z : ℚ
deriving DecidableEq

instance : Add Vec3 := ⟨fun a b => ⟨a.x + b.x, a.y + b.y, a.z + b.z⟩⟩

/-- Model of convert_to_rotation (source lines 102-108): split on commas
and read the four fields in `(w, x, y, z)` order; `tmp[0]` is the scalar
part `w`.  Python raises on a missing or malformed field, modelled as
`none`. -/
def convert_to_rotation (rotation : String) : Option Quat :=
  let tmp := splitComma rotation
  match tmp.get? 0, tmp.get? 1, tmp.get? 2, tmp.get? 3 with
  | some s0, some s1, some s2, some s3 =>
      match pyFloat s0, pyFloat s1, pyFloat s2, pyFloat s3 with
      | some w, some x, some y, some z => some ⟨w, x, y, z⟩
      | _, _, _, _ => none
  | _, _, _, _ => none

/-- Model of convert_to_location (source lines 110-115): split on commas
and read `(x, y, z)`. -/
def convert_to_location (location : String) : Option Vec3 :=
  let tmp := splitComma location
  match tmp.get? 0, tmp.get? 1, tmp.get? 2 with
  | some s0, some s1, some s2 =>
      match pyFloat s0, pyFloat s1, pyFloat s2 with
      | some x, some y, some z => some ⟨x, y, z⟩
      | _, _, _ => none
  | _, _, _ => none

/-- The rotation matrix mathutils builds for a quaternion:
`Matrix.Rotation(q.angle, 4, q.axis)` is the Rodrigues rotation about the
normalized vector part by the angle `2*acos(w/|q|)`; substituting
`cos t = (w^2 - |v|^2)/|q|^2` and `sin t = 2*w*|v|/|q|^2` gives this
closed rational form, the standard rotation matrix of the (normalized)
quaternion. -/
def quatToMat3 (q : Quat) : Matrix (Fin 3) (Fin 3) ℚ :=
  let n := q.w ^ 2 + q.x ^ 2 + q.y ^ 2 + q.z ^ 2
  !![(q.w ^ 2 + q.x ^ 2 - q.y ^ 2 - q.z ^ 2) / n,
       (2 * (q.x * q.y - q.w * q.z)) / n,
       (2 * (q.x * q.z + q.w * q.y)) / n;
     (2 * (q.x * q.y + q.w * q.z)) / n,
       (q.w ^ 2 - q.x ^ 2 + q.y ^ 2 - q.z ^ 2) / n,
       (2 * (q.y * q.z - q.w * q.x)) / n;
     (2 * (q.x * q.z - q.w * q.y)) / n,
       (2 * (q.y * q.z + q.w * q.x)) / n,
       (q.w ^ 2 - q.x ^ 2 - q.y ^ 2 + q.z ^ 2) / n]

/-- Model of `mathutils.Matrix.Translation(location)` as a 4×4 matrix. -/
def matTranslation (v : Vec3) : Matrix (Fin 4) (Fin 4) ℚ :=
  !![1, 0, 0, v.x;
     0, 1, 0, v.y;
     0, 0, 1, v.z;
     0, 0, 0, 1]

/-- Model of `mathutils.Matrix.Rotation(rotation.angle, 4,
rotation.axis)`: the 3×3 rotation block of the quaternion embedded in a
4×4 matrix. -/
def matRotation4 (q : Quat) : Matrix (Fin 4) (Fin 4) ℚ :=
  !![quatToMat3 q 0 0, quatToMat3 q 0 1, quatToMat3 q 0 2, 0;
     quatToMat3 q 1 0, quatToMat3 q 1 1, quatToMat3 q 1 2, 0;
     quatToMat3 q 2 0, quatToMat3 q 2 1, quatToMat3 q 2 2, 0;
     0, 0, 0, 1]

/-- Model of `mathutils.Matrix.Scale(factor, 4, axis)`: scaling by
`factor` along the normalized `axis`, identity plus
`(factor - 1) * a * aT / |a|^2` on the 3×3 block. -/
def matScaleAxis (f : ℚ) (a : Vec3) : Matrix (Fin 4) (Fin 4) ℚ :=
  let n := a.x ^ 2 + a.y ^ 2 + a.z ^ 2
  !![1 + (f - 1) * a.x * a.x / n, (f - 1) * a.x * a.y / n,
       (f - 1) * a.x * a.z / n, 0;
     (f - 1) * a.y * a.x / n, 1 + (f - 1) * a.y * a.y / n,
       (f - 1) * a.y * a.z / n, 0;
     (f - 1) * a.z * a.x / n, (f - 1) * a.z * a.y / n,
       1 + (f - 1) * a.z * a.z / n, 0;
     0, 0, 0, 1]

/-- Model of get_transform_matrix (source lines 117-123):
`Matrix.Translation(location) * Matrix.Rotation(rotation.angle, 4,
rotation.axis) * Matrix.Scale(1, 4, (0,0,1))`. -/
def get_transform_matrix (rotation : Quat) (location : Vec3) :
    Matrix (Fin 4) (Fin 4) ℚ :=
  matTranslation location * matRotation4 rotation *
    matScaleAxis 1 ⟨0, 0, 1⟩

/-! ## Rig geometry binder

The per-attachment node loop of import_geometry (source lines 748-791):
iterate over the scene nodes returned by the mesh import, give the node
the composed transform and bone parenting while the counter `i` is zero,
then create a vertex group named after the bone holding every vertex with
weight 1.0.  The vertex loop reuses the Python variable `i` (`for i in
range(nverts)`), so after it runs, `i` equals `nverts - 1` whenever the
mesh has at least one vertex. -/

/-- Blender object type of a returned scene node. -/
inductive ObjType
  | empty
  | mesh
deriving DecidableEq

/-- A scene node returned by `bpy.context.selected_objects` after the
collada import of one binding file. -/
structure SceneNode where
  otype : ObjType
  nverts : Nat
  oname : String
deriving DecidableEq

/-- What the node loop did to one non-empty node: whether it received the
composed world transform and bone parenting, the bone it was parented to,
and the vertex group created on it (name and `(index, weight)`
entries). -/
structure PlacedPart where
  oname : String
  gotTransform : Bool
  parentBone : Option String
  vgName : String
  vgEntries : List (Nat × ℚ)
deriving DecidableEq

/-- One pass of the node loop with current counter value `i`, mirroring
the source exactly: empty-typed nodes are skipped; a non-empty node
receives the transform iff `i = 0` (after which `i` becomes 1); the
vertex-group loop `for i in range(nverts)` then overwrites `i` with
`nverts - 1` whenever `nverts > 0`. -/
def processNodesAux (bonename : String) : Nat → List SceneNode → List PlacedPart
  | _, [] => []
  | i, n :: rest =>
      if n.otype = ObjType.empty then processNodesAux bonename i rest
      else
        let got := i = 0
        let i1 := if got then i + 1 else i
        let i2 := if n.nverts > 0 then n.nverts - 1 else i1
        { oname := n.oname
          gotTransform := got
          parentBone := if got then some bonename else none
          vgName := bonename
          vgEntries := (List.range n.nverts).map (fun k => (k, (1 : ℚ))) } ::
          processNodesAux bonename i2 rest

/-- The node loop of one attachment record, starting with `i = 0`
(source line 749). -/
def processAttachmentNodes (bonename : String) (nodes : List SceneNode) :
    List PlacedPart :=
  processNodesAux bonename 0 nodes

/-- The attributes import_geometry reads from one Attachment element. -/
structure AttachmentAttrib where
  aName : String
  boneNameRaw : String
deriving DecidableEq

/-- The node loop of one attachment, driven by the raw BoneName attribute:
the source computes `bonename = geo.attrib["BoneName"].replace(' ','_')`
(line 730) and uses only that normalized name afterwards. -/
def attachmentBind (g : AttachmentAttrib) (nodes : List SceneNode) :
    List PlacedPart :=
  processAttachmentNodes (pyReplaceSpace g.boneNameRaw) nodes

/-! ## Skeleton augmenter: knee-offset geometry

The bend-offset computation and knee IK-bone placement of create_IKs
(source lines 568-597). -/

/-- Rest head and tail of an edit bone. -/
structure Bone where
  head : Vec3
  tail : Vec3
deriving DecidableEq

/-- The skeleton bones create_IKs measures. -/
structure Skeleton where
  rightCalf : Bone
  leftCalf : Bone
  rightFoot : Bone
  rightHand : Bone
  leftHand : Bone
  rightForearm : Bone
  leftForearm : Bone
deriving DecidableEq

/-- The knee bend offset (source lines 569-572): 4 when
`rightCalf.head.y > rightFoot.tail.y`, else -4. -/
def kneeOffset (s : Skeleton) : ℚ :=
  if s.rightCalf.head.y > s.rightFoot.tail.y then 4 else -4

/-- Head of the synthesized bone Knee_IK.L (source line 589). -/
def leftKneeIKHead (s : Skeleton) : Vec3 :=
  s.leftCalf.head + ⟨0, kneeOffset s, 0⟩

/-- Head of the synthesized bone Knee_IK.R (source line 595). -/
def rightKneeIKHead (s : Skeleton) : Vec3 :=
  s.rightCalf.head + ⟨0, kneeOffset s, 0⟩

/-! ## Skeleton augmenter: bone and widget creation

The bone-creation and widget-creation passes of create_IKs (source lines
549-636) together with create_widget (source lines 301-333).  The Blender
call `edit_bones.new` never reuses an existing bone: on a name collision
it stores the new bone under a numeric-suffixed name; the model covers
one suffix level (".001"), which is exact while the suffixed name itself
is still free.  In contrast, create_widget checks `scene.objects` for the
scene-scoped widget name and, when present, repositions the existing
object (obj_to_bone) and creates nothing. -/

/-- Model of `edit_bones.new(n)`: always appends a bone, renamed with a
".001" suffix when `n` is taken. -/
def editBonesNew (names : List String) (n : String) : List String :=
  if n ∈ names then names ++ [n ++ ".001"] else names ++ [n]

/-- Names of the bones create_IKs creates, in source order: the Hip_Root
copy of the pelvis (line 549) and the eight IK control bones (lines
576-619). -/
def ikNewBoneNames : List String :=
  ["Hip_Root", "Foot_IK.R", "Foot_IK.L", "Knee_IK.L", "Knee_IK.R",
   "Hand_IK.R", "Elbow_IK.R", "Hand_IK.L", "Elbow_IK.L"]

/-- The bone-creation pass of create_IKs. -/
def addIKBones (names : List String) : List String :=
  ikNewBoneNames.foldl editBonesNew names

/-- The scene-scoped widget object name, widget marker plus rig name plus
bone name, with the rig object named Armature as in the source (lines
307, 539). -/
def wgtName (bone : String) : String :=
  "WGT-Armature_" ++ bone

/-- A widget object in the scene: its name and the location obj_to_bone
put it at (the matrix translation of its transform bone). -/
structure WidgetObj where
  wname : String
  loc : Vec3
deriving DecidableEq

/-- Model of create_widget (source lines 301-333): when the scene already
holds the widget name, reposition that object to the rest location of the
transform bone and create nothing; otherwise append a new widget object
at that location.  `boneLoc` gives the rest-pose location of each
bone. -/
def create_widget (boneLoc : String → Vec3) (scene : List WidgetObj)
    (bone tname : String) : List WidgetObj :=
  let n := wgtName bone
  if (scene.map WidgetObj.wname).contains n then
    scene.map (fun w => if w.wname = n then ⟨n, boneLoc tname⟩ else w)
  else
    scene ++ [⟨n, boneLoc tname⟩]

/-- The `(bone_name, bone_transform_name)` pairs of the eleven widget
calls of create_IKs (source lines 626-636), in order. -/
def widgetCalls : List (String × String) :=
  [("Root", "Bip01"), ("Hand_IK.R", "Hand_IK.R"), ("Hand_IK.L", "Hand_IK.L"),
   ("Foot_IK.R", "Foot_IK.R"), ("Foot_IK.L", "Foot_IK.L"),
   ("Knee_IK.R", "Knee_IK.R"), ("Knee_IK.L", "Knee_IK.L"),
   ("Elbow_IK.R", "Elbow_IK.R"), ("Elbow_IK.L", "Elbow_IK.L"),
   ("Bip01_R_Foot", "Bip01_R_Foot"), ("Bip01_L_Foot", "Bip01_L_Foot")]

/-- The widget-creation pass of create_IKs. -/
def createWidgetsPass (boneLoc : String → Vec3) (scene : List WidgetObj) :
    List WidgetObj :=
  widgetCalls.foldl (fun sc bt => create_widget boneLoc sc bt.1 bt.2) scene

/-- The armature and scene state the augmenter mutates: the bone
collection of the skeleton and the widget objects of the scene. -/
structure RigState where
  bones : List String
  widgets : List WidgetObj
deriving DecidableEq

/-- The augmentation step of create_IKs on the rig state: create the
control bones, then run the widget pass. -/
def create_IKs_augment (boneLoc : String → Vec3) (s : RigState) : RigState :=
  ⟨addIKBones s.bones, createWidgetsPass boneLoc s.widgets⟩

/-- The deform bones of an imported biped skeleton, before augmentation. -/
def bipBones : List String :=
  ["Bip01", "Bip01_Pelvis", "Bip01_Pitch", "Bip01_R_Thigh", "Bip01_R_Calf",
   "Bip01_R_Foot", "Bip01_L_Thigh", "Bip01_L_Calf", "Bip01_L_Foot",
   "Bip01_R_UpperArm", "Bip01_R_Forearm", "Bip01_R_Hand",
   "Bip01_L_UpperArm", "Bip01_L_Forearm", "Bip01_L_Hand"]

/-- Rest-pose location map placing every bone at the origin, used as a
concrete instantiation. -/
def zeroLoc : String → Vec3 := fun _ => ⟨0, 0, 0⟩

/-! ## Constraint wirer

The constraint section of create_IKs (source lines 652-717). -/

/-- Kind of a bone constraint. -/
inductive ConstraintKind
  | copyRot
  | ik
deriving DecidableEq

/-- One constraint instruction: owner pose bone, target subtarget bone,
kind, and the IK chain length (0 for the copy-rotation constraint, the
untouched Blender default). -/
structure BoneConstraint where
  owner : String
  subtarget : String
  kind : ConstraintKind
  chainCount : Nat
deriving DecidableEq

/-- The constraints create_IKs wires, in source order (lines 657-711),
given the pose-bone names of the skeleton: the hand IK chain counts
depend on whether the Elbow bone of that side exists. -/
def ikConstraints (boneNames : List String) : List BoneConstraint :=
  [⟨"Bip01_Pitch", "Bip01_Pelvis", ConstraintKind.copyRot, 0⟩,
   ⟨"Bip01_R_Hand", "Hand_IK.R", ConstraintKind.ik,
     if "Bip01_R_Elbow" ∈ boneNames then 5 else 3⟩,
   ⟨"Bip01_L_Hand", "Hand_IK.L", ConstraintKind.ik,
     if "Bip01_L_Elbow" ∈ boneNames then 5 else 3⟩,
   ⟨"Bip01_R_UpperArm", "Elbow_IK.R", ConstraintKind.ik, 1⟩,
   ⟨"Bip01_L_UpperArm", "Elbow_IK.L", ConstraintKind.ik, 1⟩,
   ⟨"Bip01_R_Calf", "Foot_IK.R", ConstraintKind.ik, 2⟩,
   ⟨"Bip01_L_Calf", "Foot_IK.L", ConstraintKind.ik, 2⟩,
   ⟨"Bip01_R_Thigh", "Knee_IK.R", ConstraintKind.ik, 1⟩,
   ⟨"Bip01_L_Thigh", "Knee_IK.L", ConstraintKind.ik, 1⟩]

/-- Look up the constraint owned by a bone. -/
def constraintFor : List BoneConstraint → String → Option BoneConstraint
  | [], _ => none
  | c :: cs, owner =>
      if c.owner = owner then some c else constraintFor cs owner

/-- The bones on which create_IKs switches `use_inherit_rotation` off, in
source order (lines 553, 663-664, 714-717). -/
def inheritRotationDisabled : List String :=
  ["Bip01_Pitch", "Bip01_L_Foot", "Bip01_R_Foot", "Bip01_L_Hand",
   "Bip01_R_Hand", "Elbow_IK.L", "Elbow_IK.R"]

/-! ## Orchestrator error policy

Model of import_mech (source lines 819-860) and the per-record recovery
of import_geometry (source lines 743-747): a failed armature import
returns failure before materials or geometry are touched; a failed
per-attachment collada import hits `continue` and the loop moves to the
next record. -/

/-- One attachment record as the orchestrator sees it: its AName and
whether the collada import of its Binding file succeeds. -/
structure AttachmentRec where
  aname : String
  colladaOk : Bool
deriving DecidableEq

/-- Terminal state of one model-import run. -/
inductive RunOutcome
  | failed
  | finished
deriving DecidableEq

/-- What one run did: whether materials were created, which attachment
records had their geometry imported and processed (in order), and the
terminal state. -/
structure RunTrace where
  materialsCreated : Bool
  geometryProcessed : List String
  outcome : RunOutcome
deriving DecidableEq

/-- The attachment loop of import_geometry (source lines 723-747):
records named cockpit are excluded, a failing collada import is skipped
by `continue`, every other record is processed in document order. -/
def geometryLoopRun : List AttachmentRec → List String
  | [] => []
  | a :: rest =>
      if a.aname = "cockpit" then geometryLoopRun rest
      else if a.colladaOk then a.aname :: geometryLoopRun rest
      else geometryLoopRun rest

/-- Model of import_mech (source lines 841-860): when the armature import
fails, the run returns failure at once, with no material creation and no
geometry import; otherwise materials are created, the geometry loop runs
over every record, and the run finishes. -/
def mechImportRun (armatureOk : Bool) (atts : List AttachmentRec) :
    RunTrace :=
  if armatureOk then
    ⟨true, geometryLoopRun atts, RunOutcome.finished⟩
  else
    ⟨false, [], RunOutcome.failed⟩

/-! ## Shading system: texture wiring of create_materials

The per-material texture loop (source lines 268-298).  The loop keeps a
single Python variable `texturefile` across iterations: the Diffuse and
Specular branches assign it before testing `os.path.isfile` on it, while
the Bumpmap branch tests `os.path.isfile(texturefile)` on the value left
over from the previous texture element and only then recomputes it and
loads the (unchecked) new path.  A Bumpmap element arriving while
`texturefile` is still unbound raises NameError; loading a missing path
raises inside `bpy.data.images.load`.  Either exception escapes the loop,
modelled as `none`. -/

/-- Strip the extension: drop from the last dot of the final path
component (modelled for names that carry a proper extension, the
descriptor convention). -/
def splitextRoot (s : String) : String :=
  let rev := s.data.reverse
  let ext := rev.takeWhile (fun c => c ≠ '.' && c ≠ '/')
  match rev.drop ext.length with
  | '.' :: rest => ⟨rest.reverse⟩
  | _ => s

/-- The resolved on-disk texture path,
`os.path.join(basedir, os.path.splitext(file)[0] + ".dds")`. -/
def texPath (basedir file : String) : String :=
  basedir ++ "/" ++ splitextRoot file ++ ".dds"

/-- One Texture element of a material: its Map kind and File. -/
structure TexElem where
  map : String
  file : String
deriving DecidableEq

/-- A texture slot that got wired: which map slot, and the image path
that was loaded for it. -/
structure WireEvent where
  slot : String
  loadedPath : String
deriving DecidableEq

/-- The texture loop of create_materials for one material, over the
filesystem `fs` (the list of existing paths).  The `Option String`
argument is the current value of the `texturefile` variable (`none`
while unbound).  Returns the wired slots, or `none` when an exception
escapes. -/
def textureLoop (fs : List String) (basedir : String) :
    Option String → List TexElem → Option (List WireEvent)
  | _, [] => some []
  | tf, t :: rest =>
      if t.map = "Diffuse" then
        let p := texPath basedir t.file
        if p ∈ fs then
          (textureLoop fs basedir (some p) rest).map
            (fun ws => ⟨"Diffuse", p⟩ :: ws)
        else textureLoop fs basedir (some p) rest
      else if t.map = "Specular" then
        let p := texPath basedir t.file
        if p ∈ fs then
          (textureLoop fs basedir (some p) rest).map
            (fun ws => ⟨"Specular", p⟩ :: ws)
        else textureLoop fs basedir (some p) rest
      else if t.map = "Bumpmap" then
        match tf with
        | none => none
        | some old =>
            if old ∈ fs then
              let p := texPath basedir t.file
              if p ∈ fs then
                (textureLoop fs basedir (some p) rest).map
                  (fun ws => ⟨"Bumpmap", p⟩ :: ws)
              else none
            else textureLoop fs basedir tf rest
      else textureLoop fs basedir tf rest

/-! ## Helper lemmas -/

/-- Componentwise form of vector addition. -/
theorem Vec3.add_def (a b : Vec3) :
    a + b = ⟨a.x + b.x, a.y + b.y, a.z + b.z⟩ := rfl

/-- Every part the node loop emits carries the bone name as its vertex
group and, exactly when it received the transform, as its parent bone. -/
theorem processNodesAux_mem (bone : String) :
    ∀ (i : Nat) (nodes : List SceneNode) (p : PlacedPart),
      p ∈ processNodesAux bone i nodes →
      p.vgName = bone ∧
      p.parentBone = (if p.gotTransform then some bone else none)
  | _, [], p, h => by simp [processNodesAux] at h
  | i, n :: rest, p, h => by
      rw [processNodesAux] at h
      by_cases he : n.otype = ObjType.empty
      · rw [if_pos he] at h
        exact processNodesAux_mem bone _ rest p h
      · rw [if_neg he] at h
        rcases List.mem_cons.mp h with h1 | h2
        · subst h1; simp
        · exact processNodesAux_mem bone _ rest p h2

/-- Scaling by factor 1 is the identity matrix. -/
theorem matScaleAxis_one : matScaleAxis 1 ⟨0, 0, 1⟩ = 1 := by
  ext i j
  fin_cases i <;> fin_cases j <;>
    simp [matScaleAxis, Matrix.one_apply, Matrix.vecHead, Matrix.vecTail]

/-- The composed bind transform, written out entrywise: rotation block on
the upper left, position in the last column. -/
theorem get_transform_matrix_explicit (q : Quat) (v : Vec3) :
    get_transform_matrix q v =
      !![quatToMat3 q 0 0, quatToMat3 q 0 1, quatToMat3 q 0 2, v.x;
         quatToMat3 q 1 0, quatToMat3 q 1 1, quatToMat3 q 1 2, v.y;
         quatToMat3 q 2 0, quatToMat3 q 2 1, quatToMat3 q 2 2, v.z;
         0, 0, 0, 1] := by
  rw [get_transform_matrix, matScaleAxis_one, mul_one]
  ext i j
  fin_cases i <;> fin_cases j <;>
    simp [matTranslation, matRotation4, Matrix.mul_apply, Fin.sum_univ_four,
      Matrix.vecHead, Matrix.vecTail]

/-- The geometry loop keeps exactly the importable non-cockpit records,
in order. -/
theorem geometryLoopRun_eq_filter (atts : List AttachmentRec) :
    geometryLoopRun atts =
      (atts.filter (fun a => a.colladaOk && !(a.aname == "cockpit"))).map
        (fun a => a.aname) := by
  induction atts with
  | nil => rfl
  | cons a rest ih =>
      by_cases hc : a.aname = "cockpit"
      · simp [geometryLoopRun, hc, ih]
      · by_cases ho : a.colladaOk <;>
          simp [geometryLoopRun, hc, ho, ih]

/-- Creating an edit bone always grows the collection by one. -/
theorem editBonesNew_length (names : List String) (n : String) :
    (editBonesNew names n).length = names.length + 1 := by
  unfold editBonesNew
  split_ifs <;> simp

/-- The bone pass always adds nine bones, never reusing existing ones. -/
theorem addIKBones_length (names : List String) :
    (addIKBones names).length = names.length + 9 := by
  simp [addIKBones, ikNewBoneNames, List.foldl, editBonesNew_length]

set_option maxHeartbeats 1000000 in
/-- Running the widget pass a second time repositions every widget to the
same rest location and creates nothing, leaving the scene unchanged. -/
theorem createWidgetsPass_idem (boneLoc : String → Vec3) :
    createWidgetsPass boneLoc (createWidgetsPass boneLoc []) =
      createWidgetsPass boneLoc [] := by
  simp [createWidgetsPass, widgetCalls, create_widget, wgtName]

/-! ## Claim theorems -/

/-- C1, counterexample: on the part name `ac20_prop` (weapon token `ac20`
plus `_prop`) the classifier of the claim answers `griffin_variant`, but
the code answers `griffin_body`, because the `_damaged`/`_prop` test runs
after the weapon test and overwrites it. -/
theorem claim1_counterexample :
    claimedClassify "griffin" "ac20_prop" = "griffin_variant" ∧
    preClassify "griffin" "ac20_prop" = "griffin_body" ∧
    ("griffin_body" : String) ≠ "griffin_variant" := by
  refine ⟨by decide, by decide, by decide⟩

/-- C1, amended: the rules are applied with precedence cockpit over
`_damaged`/`_prop` over weapon vocabulary over default: `head_cockpit`
yields window; otherwise a name containing `_damaged` or `_prop` yields
body, even when it also contains a weapon token; otherwise a weapon token
yields variant; otherwise body. -/
theorem claim1_amended (mech aname : String) :
    (pyIn "head_cockpit" aname = true →
      preClassify mech aname = mech ++ "_window") ∧
    (pyIn "head_cockpit" aname = false →
      (pyIn "_damaged" aname || pyIn "_prop" aname) = true →
      preClassify mech aname = mech ++ "_body") ∧
    (pyIn "head_cockpit" aname = false →
      (pyIn "_damaged" aname || pyIn "_prop" aname) = false →
      weapons.any (fun w => pyIn w aname) = true →
      preClassify mech aname = mech ++ "_variant") ∧
    (pyIn "head_cockpit" aname = false →
      (pyIn "_damaged" aname || pyIn "_prop" aname) = false →
      weapons.any (fun w => pyIn w aname) = false →
      preClassify mech aname = mech ++ "_body") := by
  unfold preClassify
  exact ⟨fun h1 => by simp [h1], fun h1 h2 => by simp [h1, h2],
    fun h1 h2 h3 => by simp [h1, h2, h3], fun h1 h2 h3 => by simp [h1, h2, h3]⟩

/-- C1, witness: the amended classification at the concrete cockpit part
name, giving the window key. -/
theorem claim1_witness :
    pyIn "head_cockpit" "head_cockpit_a" = true ∧
    preClassify "abc" "head_cockpit_a" = "abc_window" :=
  ⟨by decide, (claim1_amended "abc" "head_cockpit_a").1 (by decide)⟩

/-- C2, counterexample: a part named `head_cockpit_x` is pre-classified
`abc_window`, its slot-0 name `metal` does not contain `generic`, yet the
correction pass assigns `abc_variant` instead of keeping the pre-import
key, refuting the claim that the correction overrides the guess only in
the generic case. -/
theorem claim2_counterexample :
    preClassify "abc" "head_cockpit_x" = "abc_window" ∧
    postClassify "abc" (preClassify "abc" "head_cockpit_x") "metal" "m"
        ["abc_body", "abc_variant", "abc_window"] = "abc_variant" ∧
    ("abc_variant" : String) ≠ "abc_window" := by
  refine ⟨by decide, by decide, by decide⟩

/-- C2, amended: the correction pass ignores the pre-import guess
entirely; a generic slot-0 name yields the mech generic key when known to
the scene and the bare generic key otherwise, a non-generic slot-0 name
yields the variant key, and in either case an object name containing
`_prop` forces the body key. -/
theorem claim2_amended (mech pre pre2 slot0 objName : String)
    (keys : List String) :
    postClassify mech pre slot0 objName keys =
      postClassify mech pre2 slot0 objName keys ∧
    (pyIn "_prop" objName = true →
      postClassify mech pre slot0 objName keys = mech ++ "_body") ∧
    (pyIn "_prop" objName = false → pyIn "generic" slot0 = true →
      (mech ++ "_generic") ∈ keys →
      postClassify mech pre slot0 objName keys = mech ++ "_generic") ∧
    (pyIn "_prop" objName = false → pyIn "generic" slot0 = true →
      (mech ++ "_generic") ∉ keys →
      postClassify mech pre slot0 objName keys = "generic") ∧
    (pyIn "_prop" objName = false → pyIn "generic" slot0 = false →
      postClassify mech pre slot0 objName keys = mech ++ "_variant") := by
  unfold postClassify
  exact ⟨rfl, fun h1 => by simp [h1], fun h1 h2 h3 => by simp [h1, h2, h3],
    fun h1 h2 h3 => by simp [h1, h2, h3], fun h1 h2 => by simp [h1, h2]⟩

/-- C2, witness: the correction at the concrete spec example, slot-0 name
`weapon_generic` with `griffin_generic` known, yields `griffin_generic`
over the pre-import guess `griffin_body`. -/
theorem claim2_witness :
    postClassify "griffin" "griffin_body" "weapon_generic" "m"
      ["griffin_generic"] = "griffin_generic" :=
  (claim2_amended "griffin" "griffin_body" "x" "weapon_generic" "m"
    ["griffin_generic"]).2.2.1 (by decide) (by decide) (by decide)

/-- C3, confirmed: a rotation string parses in `(w, x, y, z)` order; the
composed bind transform is the translation matrix times the rotation
matrix (the scale factor 1 contributes the identity), its last column is
the position and its upper-left 3×3 block is the rotation matrix of the
quaternion; the identity quaternion with the zero vector composes to the
identity matrix. -/
theorem claim3_compose (s : String) (a b c d : ℚ)
    (h : (splitComma s).map pyFloat = [some a, some b, some c, some d]) :
    convert_to_rotation s = some ⟨a, b, c, d⟩ ∧
    (∀ (q : Quat) (v : Vec3),
      get_transform_matrix q v = matTranslation v * matRotation4 q) ∧
    (∀ (q : Quat) (v : Vec3),
      get_transform_matrix q v =
        !![quatToMat3 q 0 0, quatToMat3 q 0 1, quatToMat3 q 0 2, v.x;
           quatToMat3 q 1 0, quatToMat3 q 1 1, quatToMat3 q 1 2, v.y;
           quatToMat3 q 2 0, quatToMat3 q 2 1, quatToMat3 q 2 2, v.z;
           0, 0, 0, 1]) ∧
    get_transform_matrix ⟨1, 0, 0, 0⟩ ⟨0, 0, 0⟩ = 1 := by
  refine ⟨?_, ?_, fun q v => get_transform_matrix_explicit q v, ?_⟩
  · unfold convert_to_rotation
    rcases hs : splitComma s with _ | ⟨s0, _ | ⟨s1, _ | ⟨s2, _ | ⟨s3, rest⟩⟩⟩⟩ <;>
      rw [hs] at h <;> simp_all
  · intro q v
    rw [get_transform_matrix, matScaleAxis_one, mul_one]
  · rw [get_transform_matrix_explicit]
    ext i j
    fin_cases i <;> fin_cases j <;>
      simp [quatToMat3, Matrix.one_apply, Matrix.vecHead, Matrix.vecTail]

/-- C3, witness: the identity rotation string parses to the identity
quaternion, and composing it with the zero vector yields the identity
matrix. -/
theorem claim3_witness :
    (splitComma "1,0,0,0").map pyFloat =
      [some 1, some 0, some 0, some 0] ∧
    convert_to_rotation "1,0,0,0" = some ⟨1, 0, 0, 0⟩ ∧
    get_transform_matrix ⟨1, 0, 0, 0⟩ ⟨0, 0, 0⟩ = 1 := by
  have h : (splitComma "1,0,0,0").map pyFloat =
      [some 1, some 0, some 0, some 0] := by decide
  exact ⟨h, (claim3_compose "1,0,0,0" 1 0 0 0 h).1,
    (claim3_compose "1,0,0,0" 1 0 0 0 h).2.2.2⟩

/-- C4, code bug: when the first mesh node has exactly one vertex, the
vertex-group loop `for i in range(nverts)` resets the counter `i` to 0,
so the second mesh node also receives the transform and parenting,
against the stated (and commented) intent that only the first node is the
parent.  With a two-vertex first mesh the counter stays nonzero and only
the first node is transformed. -/
theorem claim4_bug :
    processAttachmentNodes "Bip01_R_Hand"
        [⟨ObjType.mesh, 1, "m1"⟩, ⟨ObjType.mesh, 3, "m2"⟩] =
      [⟨"m1", true, some "Bip01_R_Hand", "Bip01_R_Hand", [(0, 1)]⟩,
       ⟨"m2", true, some "Bip01_R_Hand", "Bip01_R_Hand",
         [(0, 1), (1, 1), (2, 1)]⟩] ∧
    (processAttachmentNodes "b"
        [⟨ObjType.mesh, 2, "m1"⟩, ⟨ObjType.mesh, 3, "m2"⟩]).map
        PlacedPart.gotTransform = [true, false] := by
  refine ⟨by decide, by decide⟩

/-- C5, confirmed: the knee bend offset is positive exactly when the calf
rest depth coordinate exceeds the foot rest depth coordinate and negative
otherwise, and each knee pole head is the corresponding calf head
displaced by that offset along the depth axis. -/
theorem claim5_knee (s : Skeleton) :
    (kneeOffset s > 0 ↔ s.rightCalf.head.y > s.rightFoot.tail.y) ∧
    (kneeOffset s < 0 ↔ ¬ s.rightCalf.head.y > s.rightFoot.tail.y) ∧
    leftKneeIKHead s =
      ⟨s.leftCalf.head.x, s.leftCalf.head.y + kneeOffset s,
        s.leftCalf.head.z⟩ ∧
    rightKneeIKHead s =
      ⟨s.rightCalf.head.x, s.rightCalf.head.y + kneeOffset s,
        s.rightCalf.head.z⟩ := by
  refine ⟨?_, ?_, ?_, ?_⟩
  · by_cases h : s.rightCalf.head.y > s.rightFoot.tail.y <;>
      simp [kneeOffset, h]
  · by_cases h : s.rightCalf.head.y > s.rightFoot.tail.y <;>
      simp [kneeOffset, h]
  · simp [leftKneeIKHead, Vec3.add_def]
  · simp [rightKneeIKHead, Vec3.add_def]

/-- C6, confirmed: each hand targets its Hand-IK control with chain
length 5 when the Elbow bone of that side exists and 3 otherwise, each
upper arm targets its Elbow-IK pole with chain length 1, each calf
targets its Foot-IK control with chain length 2, each thigh targets its
Knee-IK pole with chain length 1, and rotation inheritance is disabled on
both hands, both elbow poles and both feet. -/
theorem claim6_wiring (boneNames : List String) :
    constraintFor (ikConstraints boneNames) "Bip01_R_Hand" =
      some ⟨"Bip01_R_Hand", "Hand_IK.R", ConstraintKind.ik,
        if "Bip01_R_Elbow" ∈ boneNames then 5 else 3⟩ ∧
    constraintFor (ikConstraints boneNames) "Bip01_L_Hand" =
      some ⟨"Bip01_L_Hand", "Hand_IK.L", ConstraintKind.ik,
        if "Bip01_L_Elbow" ∈ boneNames then 5 else 3⟩ ∧
    constraintFor (ikConstraints boneNames) "Bip01_R_UpperArm" =
      some ⟨"Bip01_R_UpperArm", "Elbow_IK.R", ConstraintKind.ik, 1⟩ ∧
    constraintFor (ikConstraints boneNames) "Bip01_L_UpperArm" =
      some ⟨"Bip01_L_UpperArm", "Elbow_IK.L", ConstraintKind.ik, 1⟩ ∧
    constraintFor (ikConstraints boneNames) "Bip01_R_Calf" =
      some ⟨"Bip01_R_Calf", "Foot_IK.R", ConstraintKind.ik, 2⟩ ∧
    constraintFor (ikConstraints boneNames) "Bip01_L_Calf" =
      some ⟨"Bip01_L_Calf", "Foot_IK.L", ConstraintKind.ik, 2⟩ ∧
    constraintFor (ikConstraints boneNames) "Bip01_R_Thigh" =
      some ⟨"Bip01_R_Thigh", "Knee_IK.R", ConstraintKind.ik, 1⟩ ∧
    constraintFor (ikConstraints boneNames) "Bip01_L_Thigh" =
      some ⟨"Bip01_L_Thigh", "Knee_IK.L", ConstraintKind.ik, 1⟩ ∧
    "Bip01_R_Hand" ∈ inheritRotationDisabled ∧
    "Bip01_L_Hand" ∈ inheritRotationDisabled ∧
    "Elbow_IK.R" ∈ inheritRotationDisabled ∧
    "Elbow_IK.L" ∈ inheritRotationDisabled ∧
    "Bip01_R_Foot" ∈ inheritRotationDisabled ∧
    "Bip01_L_Foot" ∈ inheritRotationDisabled := by
  refine ⟨?_, ?_, ?_, ?_, ?_, ?_, ?_, ?_, ?_, ?_, ?_, ?_, ?_, ?_⟩ <;>
    simp [ikConstraints, constraintFor, inheritRotationDisabled]

/-- C7, confirmed: a failed armature import ends the run as failed with
no materials created and no geometry processed, while with the armature
imported the run always finishes, processing exactly the importable
non-cockpit records in order, so a record whose binding import fails is
skipped and every later record is still processed. -/
theorem claim7_errors (armatureOk : Bool) (atts : List AttachmentRec) :
    (armatureOk = false →
      mechImportRun armatureOk atts = ⟨false, [], RunOutcome.failed⟩) ∧
    (armatureOk = true →
      (mechImportRun armatureOk atts).outcome = RunOutcome.finished ∧
      (mechImportRun armatureOk atts).materialsCreated = true ∧
      (mechImportRun armatureOk atts).geometryProcessed =
        (atts.filter (fun a => a.colladaOk && !(a.aname == "cockpit"))).map
          (fun a => a.aname)) := by
  constructor
  · intro h; simp [mechImportRun, h]
  · intro h
    simp [mechImportRun, h, geometryLoopRun_eq_filter]

/-- C7, witness: the run at a concrete record list whose middle record
fails to import, once with a failing armature and once with a good
one. -/
theorem claim7_witness :
    mechImportRun false
      [⟨"torso", true⟩, ⟨"lights", false⟩, ⟨"arm", true⟩] =
        ⟨false, [], RunOutcome.failed⟩ ∧
    (mechImportRun true
      [⟨"torso", true⟩, ⟨"lights", false⟩, ⟨"arm", true⟩]).outcome =
        RunOutcome.finished ∧
    (mechImportRun true
      [⟨"torso", true⟩, ⟨"lights", false⟩,
        ⟨"arm", true⟩]).geometryProcessed = ["torso", "arm"] := by
  refine ⟨(claim7_errors false _).1 rfl,
    ((claim7_errors true _).2 rfl).1,
    (((claim7_errors true _).2 rfl).2.2).trans (by decide)⟩

set_option maxHeartbeats 2000000 in
/-- C8, counterexample: augmenting a fresh biped skeleton twice does not
reproduce the control-bone name set of a single augmentation; the second
invocation adds a duplicate foot control under the suffixed name, because
the bone-creation calls never check for an existing bone. -/
theorem claim8_counterexample :
    "Foot_IK.R.001" ∈
      (create_IKs_augment zeroLoc
        (create_IKs_augment zeroLoc ⟨bipBones, []⟩)).bones ∧
    "Foot_IK.R.001" ∉
      (create_IKs_augment zeroLoc ⟨bipBones, []⟩).bones ∧
    (create_IKs_augment zeroLoc
        (create_IKs_augment zeroLoc ⟨bipBones, []⟩)).bones ≠
      (create_IKs_augment zeroLoc ⟨bipBones, []⟩).bones := by
  refine ⟨by decide, by decide, by decide⟩

set_option maxHeartbeats 2000000 in
/-- C8, amended: re-invoking the augmentation step repositions the
existing proxy widgets instead of duplicating them, leaving the widget
objects unchanged, but it does not reuse control bones: every invocation
creates nine new bones, and the second invocation stores them under
suffixed duplicate names. -/
theorem claim8_amended (boneLoc : String → Vec3) :
    (create_IKs_augment boneLoc
        (create_IKs_augment boneLoc ⟨bipBones, []⟩)).widgets =
      (create_IKs_augment boneLoc ⟨bipBones, []⟩).widgets ∧
    (create_IKs_augment boneLoc
        (create_IKs_augment boneLoc ⟨bipBones, []⟩)).bones =
      (create_IKs_augment boneLoc ⟨bipBones, []⟩).bones ++
        ["Hip_Root.001", "Foot_IK.R.001", "Foot_IK.L.001", "Knee_IK.L.001",
         "Knee_IK.R.001", "Hand_IK.R.001", "Elbow_IK.R.001",
         "Hand_IK.L.001", "Elbow_IK.L.001"] ∧
    (∀ names : List String, (addIKBones names).length = names.length + 9) := by
  refine ⟨?_, ?_, addIKBones_length⟩
  · simp only [create_IKs_augment]
    exact createWidgetsPass_idem boneLoc
  · simp only [create_IKs_augment]
    decide

/-- C9, code bug: a Bumpmap element does not get its own resolved path
checked.  Arriving first, it raises (unbound `texturefile`) even though
its own file exists; arriving after a Diffuse element whose file exists,
the stale check passes and loading the missing Bumpmap file raises
instead of skipping the slot.  Diffuse and Specular slots do check their
own path and are skipped silently when it is missing. -/
theorem claim9_bug :
    textureLoop [texPath "base" "n.tif"] "base" none
        [⟨"Bumpmap", "n.tif"⟩] = none ∧
    textureLoop [texPath "base" "d.tif"] "base" none
        [⟨"Diffuse", "d.tif"⟩, ⟨"Bumpmap", "n.tif"⟩] = none ∧
    textureLoop [texPath "base" "d.tif"] "base" none
        [⟨"Diffuse", "d.tif"⟩] =
      some [⟨"Diffuse", texPath "base" "d.tif"⟩] ∧
    textureLoop [texPath "base" "s.tif"] "base" none
        [⟨"Specular", "s.tif"⟩, ⟨"Diffuse", "d.tif"⟩] =
      some [⟨"Specular", texPath "base" "s.tif"⟩] := by
  refine ⟨by decide, by decide, by decide, by decide⟩

/-- C10, confirmed: the node loop of an attachment uses the
space-normalized BoneName for the vertex-group name and the bone
parenting of every emitted part, and the normalization preserves length,
leaves no space in the result, and keeps every non-space character. -/
theorem claim10_bonename (g : AttachmentAttrib) (nodes : List SceneNode) :
    (∀ p, p ∈ attachmentBind g nodes →
      p.vgName = pyReplaceSpace g.boneNameRaw ∧
      p.parentBone =
        (if p.gotTransform then some (pyReplaceSpace g.boneNameRaw)
         else none)) ∧
    (pyReplaceSpace g.boneNameRaw).data.length =
      g.boneNameRaw.data.length ∧
    (∀ c, c ∈ (pyReplaceSpace g.boneNameRaw).data → c ≠ ' ') ∧
    (∀ i : Nat,
      (pyReplaceSpace g.boneNameRaw).data.getD i 'x' =
        if g.boneNameRaw.data.getD i 'x' = ' ' then '_'
        else g.boneNameRaw.data.getD i 'x') := by
  refine ⟨?_, ?_, ?_, ?_⟩
  · intro p hp
    exact processNodesAux_mem (pyReplaceSpace g.boneNameRaw) 0 nodes p hp
  · simp [pyReplaceSpace]
  · intro c hc
    simp [pyReplaceSpace] at hc
    rcases hc with ⟨a, ham, rfl⟩
    split_ifs with h
    · decide
    · exact h
  · intro i
    rcases h : g.boneNameRaw.data[i]? with _ | a
    · simp [pyReplaceSpace, List.getD_eq_getElem?_getD, List.getElem?_map, h]
    · simp [pyReplaceSpace, List.getD_eq_getElem?_getD, List.getElem?_map, h]

/-- C10, witness: a raw bone name with spaces is normalized to the
underscored name, which the emitted part carries as vertex group and
parent bone. -/
theorem claim10_witness :
    (⟨"m", true, some "Bip01_R_Hand", "Bip01_R_Hand",
        [(0, 1), (1, 1)]⟩ : PlacedPart).vgName =
      pyReplaceSpace "Bip01 R Hand" ∧
    (⟨"m", true, some "Bip01_R_Hand", "Bip01_R_Hand",
        [(0, 1), (1, 1)]⟩ : PlacedPart).parentBone =
      some (pyReplaceSpace "Bip01 R Hand") := by
  have h := (claim10_bonename ⟨"arm", "Bip01 R Hand"⟩
    [⟨ObjType.mesh, 2, "m"⟩]).1
    ⟨"m", true, some "Bip01_R_Hand", "Bip01_R_Hand", [(0, 1), (1, 1)]⟩
    (by decide)
  exact ⟨h.1, by simpa using h.2⟩

end MechImporter
